import Mathlib

/-
Verification of the SmartSim core against its specification.

The development shallowly embeds the Job Manager (smartsim/control/jobmanager.py,
smartsim/control/job.py) and the permutation strategy registry
(smartsim/entity/strategies.py). Python dicts are modelled as insertion-ordered
association lists, Python exceptions as `Except` values, and the dynamic
argument binding of the two method calls whose arity is in question is modelled
explicitly (`bindOk`).
-/

set_option autoImplicit false

namespace SmartSim

/-! ## Insertion-ordered dictionaries (Python `dict`) -/

/-- Dict κ α models a Python dict with key type κ: an association list in
insertion order with unique keys. -/
abbrev Dict (κ α : Type) := List (κ × α)

/-- dictGet models `d[k]` / `d.get(k)`: the value at the first matching key. -/
def dictGet {κ α : Type} [DecidableEq κ] : Dict κ α → κ → Option α
  | [], _ => none
  | (k', v) :: rest, k => if k' = k then some v else dictGet rest k

/-- dictMem models `k in d`. -/
def dictMem {κ α : Type} [DecidableEq κ] (d : Dict κ α) (k : κ) : Bool :=
  (dictGet d k).isSome

/-- dictSet models `d[k] = v`: update in place if the key exists, else append. -/
def dictSet {κ α : Type} [DecidableEq κ] : Dict κ α → κ → α → Dict κ α
  | [], k, v => [(k, v)]
  | (k', v') :: rest, k, v =>
      if k' = k then (k', v) :: rest else (k', v') :: dictSet rest k v

/-- dictDel models `del d[k]`. -/
def dictDel {κ α : Type} [DecidableEq κ] : Dict κ α → κ → Dict κ α
  | [], _ => []
  | (k', v) :: rest, k =>
      if k' = k then dictDel rest k else (k', v) :: dictDel rest k

/-- dictMerge models `\x7b**a, **b\x7d`: a copy of a updated by b in order. -/
def dictMerge {κ α : Type} [DecidableEq κ] (a b : Dict κ α) : Dict κ α :=
  b.foldl (fun acc kv => dictSet acc kv.1 kv.2) a

/-! ## Entities

`add_job` and `restart_job` classify entities with
`isinstance(entity, (DBNode, Orchestrator))`; the entity class is modelled by
a tag carrying exactly that distinction plus the `.name` attribute used as a
collection key. -/

/-- EntityType distinguishes the classes tested by the isinstance checks in
jobmanager.py from every other SmartSimEntity (e.g. Model). -/
inductive EntityType : Type
  | dbNode
  | orchestrator
  | model
  deriving DecidableEq, Repr

/-- Entity models a SmartSimEntity as consumed by the JobManager: its `.name`
attribute and its class (for the isinstance dispatch). -/
structure Entity : Type where
  name : String
  etype : EntityType
  deriving DecidableEq, Repr

/-- Entity.isDbKind models `isinstance(entity, (DBNode, Orchestrator))`. -/
def Entity.isDbKind (e : Entity) : Bool :=
  match e.etype with
  | .dbNode => true
  | .orchestrator => true
  | .model => false

/-! ## Job and History (smartsim/control/job.py) -/

/-- History: per-run records keyed by run index, plus the run counter. -/
structure History : Type where
  runs : Nat
  jids : Dict Nat String
  statuses : Dict Nat String
  returns : Dict Nat (Option Int)
  errors : Dict Nat (Option String)
  outputs : Dict Nat (Option String)
  deriving DecidableEq, Repr

/-- History.init models `History()` with `runs=0` and empty per-run dicts. -/
def History.init : History :=
  { runs := 0, jids := [], statuses := [], returns := [], errors := [], outputs := [] }

/-- History.record models `History.record(job_id, status, returncode, error, output)`:
store each field at the current run index. -/
def History.record (h : History) (job_id : String) (status : String)
    (returncode : Option Int) (err : Option String) (out : Option String) : History :=
  { h with
    jids := dictSet h.jids h.runs job_id
    statuses := dictSet h.statuses h.runs status
    returns := dictSet h.returns h.runs returncode
    errors := dictSet h.errors h.runs err
    outputs := dictSet h.outputs h.runs out }

/-- History.new_run models `History.new_run()`: increment the run counter. -/
def History.new_run (h : History) : History :=
  { h with runs := h.runs + 1 }

/-- Job: the mutable record created by `Job.__init__(job_name, job_id, entity)`. -/
structure Job : Type where
  name : String
  jid : String
  entity : Entity
  status : String
  returncode : Option Int
  output : Option String
  error : Option String
  nodes : Option (List String)
  history : History
  deriving DecidableEq, Repr

/-- Job.init models `Job(job_name, job_id, entity)`. -/
def Job.init (job_name job_id : String) (entity : Entity) : Job :=
  { name := job_name, jid := job_id, entity := entity, status := "NEW",
    returncode := none, output := none, error := none, nodes := none,
    history := History.init }

/-- jobInitAttrs is the list of instance attributes that `Job.__init__` sets;
Python attribute lookup on a Job succeeds exactly for these names. -/
def jobInitAttrs : List String :=
  ["name", "jid", "entity", "status", "returncode", "output", "error", "nodes", "history"]

/-- jobGetEname models the attribute access `job.ename` performed by
`move_to_completed`: it succeeds only if `ename` is an attribute of Job
(it is not — `Job.__init__` never sets it — so the access raises
AttributeError; the `some` branch records what the surrounding code would
use the attribute for). -/
def jobGetEname (j : Job) : Option String :=
  if jobInitAttrs.contains "ename" then some j.entity.name else none

/-- Job.set_status models `Job.set_status(new_status, returncode, error=None,
output=None)`: unconditional overwrite of the four fields. -/
def Job.set_status (j : Job) (new_status : String) (returncode : Option Int)
    (err : Option String) (out : Option String) : Job :=
  { j with status := new_status, returncode := returncode, error := err, output := out }

/-- Job.record_history models `Job.record_history()`. -/
def Job.record_history (j : Job) : Job :=
  { j with history := j.history.record j.jid j.status j.returncode j.error j.output }

/-- Job.reset models `Job.reset(new_job_id)`: assign the new id, status NEW,
clear the result fields and advance the history run counter. -/
def Job.reset (j : Job) (new_job_id : String) : Job :=
  { j with jid := new_job_id, status := "NEW", returncode := none, output := none,
           error := none, nodes := none, history := j.history.new_run }

/-! ## Python call binding

Two method calls in jobmanager.py pass argument lists that cannot bind to the
callee's signature. `bindOk` models CPython's binding of a call
`f(a1, ..., a_numPos, kw1=..., ...)` against positional formals (with the
first numRequired lacking defaults): each keyword must name a formal, must not
collide with a positionally-bound formal, keywords must be distinct, at most
`formals.length` positionals, and every required formal must be bound. -/

/-- bindOk is true iff the call binds without a TypeError. -/
def bindOk (formals : List String) (numRequired numPos : Nat)
    (kws : List String) : Bool :=
  numPos ≤ formals.length &&
  kws.all formals.contains &&
  kws.all (fun k => !(formals.take numPos).contains k) &&
  (kws.eraseDups == kws) &&
  (formals.take numRequired).all
    (fun f => (formals.take numPos).contains f || kws.contains f)

/-- setStatusFormals: the formals of `Job.set_status` after `self`. -/
def setStatusFormals : List String := ["new_status", "returncode", "error", "output"]

/-- resetFormals: the formals of `Job.reset` after `self`. -/
def resetFormals : List String := ["new_job_id"]

/-! ## JobManager state and operations (smartsim/control/jobmanager.py)

The lock discipline is not modelled: in this single-threaded embedding every
method body is atomic, which is what the lock provides. Python exceptions
raised by a method are modelled as `Except.error` carrying both the error and
the state at the moment the exception propagates (mutations made before the
raise are kept, as in Python). -/

/-- JobManager state: the three collections, all keyed by entity name. -/
structure JobManager : Type where
  jobs : Dict String Job
  db_jobs : Dict String Job
  completed : Dict String Job
  deriving DecidableEq, Repr

/-- PyError: the exceptions the embedded operations can raise. -/
inductive PyError : Type
  | keyError
  | typeError
  | attributeError
  | smartSimError (msg : String)
  deriving DecidableEq, Repr

/-- JMResult: outcome of a mutating JobManager method — either the new state,
or an exception together with the state left behind by it. -/
abbrev JMResult := Except (PyError × JobManager) JobManager

/-- add_job models `JobManager.add_job(job_name, job_id, entity)`: construct a
Job and insert it, keyed by `entity.name`, into db_jobs for DBNode/Orchestrator
entities and into jobs otherwise. -/
def add_job (st : JobManager) (job_name job_id : String) (entity : Entity) : JobManager :=
  let job := Job.init job_name job_id entity
  if entity.isDbKind then
    { st with db_jobs := dictSet st.db_jobs entity.name job }
  else
    { st with jobs := dictSet st.jobs entity.name job }

/-- getitem models `JobManager.__getitem__(entity_name)`: search db_jobs, then
jobs, then completed; KeyError if absent from all three. -/
def getitem (st : JobManager) (entity_name : String) : Except PyError Job :=
  match dictGet st.db_jobs entity_name with
  | some j => .ok j
  | none =>
    match dictGet st.jobs entity_name with
    | some j => .ok j
    | none =>
      match dictGet st.completed entity_name with
      | some j => .ok j
      | none => .error .keyError

/-- allActive models `JobManager.__call__()`: the merged dict
`\x7b**self.jobs, **self.db_jobs\x7d`. -/
def allActive (st : JobManager) : Dict String Job :=
  dictMerge st.jobs st.db_jobs

/-- query_restart models `JobManager.query_restart(entity_name)`:
true iff the name is in completed. -/
def query_restart (st : JobManager) (entity_name : String) : Bool :=
  dictMem st.completed entity_name

/-- get_status models `JobManager.get_status(entity)` (by the entity's name):
completed first, then `self[entity.name]`; a KeyError from the lookup is
converted to the SmartSimError saying the entity has not been launched. -/
def get_status (st : JobManager) (entity_name : String) : Except PyError String :=
  match dictGet st.completed entity_name with
  | some j => .ok j.status
  | none =>
    match getitem st entity_name with
    | .ok j => .ok j.status
    | .error _ =>
      .error (.smartSimError
        ("Entity by the name of " ++ entity_name ++
          " has not been launched by this Controller"))

/-- move_to_completed models `JobManager.move_to_completed(job)`. The first
action, `self.completed[job.ename] = job`, reads the attribute `job.ename`,
which `Job.__init__` never sets, so the access raises AttributeError before
any mutation. The (unreachable) success branch records history, inserts into
completed and deletes from whichever active collection holds the name. -/
def move_to_completed (st : JobManager) (job : Job) : JMResult :=
  match jobGetEname job with
  | none => .error (.attributeError, st)
  | some ename =>
    let job1 := job.record_history
    let st1 := { st with completed := dictSet st.completed ename job1 }
    if dictMem st1.db_jobs ename then
      .ok { st1 with db_jobs := dictDel st1.db_jobs ename }
    else if dictMem st1.jobs ename then
      .ok { st1 with jobs := dictDel st1.jobs ename }
    else
      .ok st1

/-- restart_job models `JobManager.restart_job(job_name, job_id, entity_name)`:
fetch and delete the completed entry, then call `job.reset(job_name, job_id)`.
That call passes two positional arguments to a method with the single formal
`new_job_id`, so it raises TypeError after the deletion; the (unreachable)
success branch would reset the job and reinsert it by entity kind. -/
def restart_job (st : JobManager) (job_name job_id entity_name : String) : JMResult :=
  match dictGet st.completed entity_name with
  | none => .error (.keyError, st)
  | some job =>
    let st1 := { st with completed := dictDel st.completed entity_name }
    if bindOk resetFormals 1 2 [] then
      let job1 := job.reset job_name
      if job1.entity.isDbKind then
        .ok { st1 with db_jobs := dictSet st1.db_jobs entity_name job1 }
      else
        .ok { st1 with jobs := dictSet st1.jobs entity_name job1 }
    else
      .error (.typeError, st1)

/-- StatusReport: one element of the sequence returned by the launcher
adapter's `get_step_update`, aligned positionally with the job names. -/
structure StatusReport : Type where
  status : String
  launcher_status : String
  returncode : Option Int
  error : Option String
  output : Option String
  deriving DecidableEq, Repr

/-- checkJobsLoop models the `for status, job in zip(statuses, jobs)` loop of
`check_jobs`. Each iteration calls
`job.set_status(status.status, status.launcher_status, status.returncode,
error=status.error, output=status.output)` — three positional arguments plus
the keyword `error`, which collides with the third positional binding of the
formal `error`, so the call raises TypeError. The (unreachable) success branch
would overwrite the job's fields from the report. -/
def checkJobsLoop (st : JobManager) :
    List (StatusReport × (String × Job)) → JMResult
  | [] => .ok st
  | (r, kv) :: rest =>
    if bindOk setStatusFormals 2 3 ["error", "output"] then
      let j1 := (kv.2).set_status r.status r.returncode r.error r.output
      let st1 :=
        { st with
          jobs := if dictMem st.jobs kv.1 then dictSet st.jobs kv.1 j1 else st.jobs
          db_jobs := if dictMem st.db_jobs kv.1 then dictSet st.db_jobs kv.1 j1 else st.db_jobs }
      checkJobsLoop st1 rest
    else
      .error (.typeError, st)

/-- check_jobs models `JobManager.check_jobs()`: snapshot the union of
jobs and db_jobs, request one batched `get_step_update` for all tracked job
names (the adapter's reply is the `reports` argument), and apply each report
to its job in order. -/
def check_jobs (st : JobManager) (reports : List StatusReport) : JMResult :=
  let snapshot := allActive st
  checkJobsLoop st (reports.zip snapshot)

/-- stepUpdateNames models the argument `[job.name for job in jobs]` that
`check_jobs` passes to `get_step_update`. -/
def stepUpdateNames (st : JobManager) : List String :=
  (allActive st).map (fun kv => kv.2.name)

/-! ## Permutation strategies (smartsim/entity/strategies.py) -/

/-- pyProduct models `itertools.product(*lists)`: the cross product of the
given value lists, last position varying fastest; the product of zero lists
is one empty tuple. -/
def pyProduct {α : Type} : List (List α) → List (List α)
  | [] => [[]]
  | xs :: rest => xs.flatMap (fun x => (pyProduct rest).map (fun t => x :: t))

/-- pyMultiZip models `zip(*lists)`: positional tuples up to the shortest
list; `zip()` of zero lists yields nothing. -/
def pyMultiZip {α : Type} : List (List α) → List (List α)
  | [] => []
  | [xs] => xs.map (fun x => [x])
  | xs :: rest => (xs.zip (pyMultiZip rest)).map (fun p => p.1 :: p.2)

/-- pySliceTo models the Python prefix slice `l[:n]` for an int `n`, including
the negative case (`l[:-k]` drops the last k elements). -/
def pySliceTo {α : Type} (l : List α) (n : Int) : List α :=
  if 0 ≤ n then l.take n.toNat else l.take (l.length - (-n).toNat)

/-- zipLongest models `itertools.zip_longest(as, bs, fillvalue)` for two
iterables, with a fill value for each side. -/
def zipLongest {α β : Type} (fa : α) (fb : β) : List α → List β → List (α × β)
  | [], bs => bs.map (fun b => (fa, b))
  | a :: as, [] => (a, fb) :: zipLongest fa fb as []
  | a :: as, b :: bs => (a, b) :: zipLongest fa fb as bs

/-- FileSlot: the first component handed to `ParamSet(...)`. In `step` the
`zip_longest(..., fillvalue=-1)` can put the plain int -1 here instead of a
file-parameter dict. -/
inductive FileSlot : Type
  | dict (d : Dict String String)
  | fill (n : Int)
  deriving DecidableEq, Repr

/-- ExeSlot: the second component handed to `ParamSet(...)`; as with
FileSlot, `step` can fill it with the int -1. -/
inductive ExeSlot : Type
  | dict (d : Dict String (List String))
  | fill (n : Int)
  deriving DecidableEq, Repr

/-- Modelled from the spec: `ParamSet` (smartsim/entity/param_data_class.py is
not in the sources) is an immutable pairing of a file-parameter mapping and an
executable-argument mapping, representing one run configuration. -/
structure ParamSet : Type where
  file_params : FileSlot
  exe_args : ExeSlot
  deriving DecidableEq, Repr

/-- StratError: the exceptions the strategy layer can raise. -/
inductive StratError : Type
  | valueErrorUnknown (msg : String)
  | valueErrorIslice
  | userStrategyError (fnId : String)
  | userException (msg : String)
  deriving DecidableEq, Repr

/-- create_all_permutations models the `all_perm` strategy: the cross product
of parameter values and of exe-arg values, each prefix-sliced with
`[:_n_permutations]`, combined by a further cross product and capped with
`itertools.islice(..., _n_permutations)` — which raises ValueError when
`_n_permutations` is negative. -/
def create_all_permutations (params : Dict String (List String))
    (exe_args : Dict String (List (List String))) (n : Int) :
    Except StratError (List ParamSet) :=
  let params_permutations := pyProduct (params.map Prod.snd)
  let param_zip := pySliceTo
    (params_permutations.map (fun perm => FileSlot.dict ((params.map Prod.fst).zip perm))) n
  let exe_arg_permutations := pyProduct (exe_args.map Prod.snd)
  let exe_arg_zip := pySliceTo
    (exe_arg_permutations.map (fun perm => ExeSlot.dict ((exe_args.map Prod.fst).zip perm))) n
  let combinations := param_zip.flatMap (fun p => exe_arg_zip.map (fun e => (p, e)))
  if n < 0 then .error .valueErrorIslice
  else .ok ((combinations.map (fun pe => ParamSet.mk pe.1 pe.2)).take n.toNat)

/-- step_values models the `step` strategy: `zip(*params.values())` and
`zip(*exe_args.values())`, each prefix-sliced with `[:_n_permutations]`,
paired by `zip_longest(..., fillvalue=-1)` and capped with
`itertools.islice(..., _n_permutations)` — which raises ValueError when
`_n_permutations` is negative. -/
def step_values (params : Dict String (List String))
    (exe_args : Dict String (List (List String))) (n : Int) :
    Except StratError (List ParamSet) :=
  let param_steps := pyMultiZip (params.map Prod.snd)
  let param_zip := pySliceTo
    (param_steps.map (fun stp => FileSlot.dict ((params.map Prod.fst).zip stp))) n
  let exe_steps := pyMultiZip (exe_args.map Prod.snd)
  let exe_arg_zip := pySliceTo
    (exe_steps.map (fun stp => ExeSlot.dict ((exe_args.map Prod.fst).zip stp))) n
  let pairs := zipLongest (FileSlot.fill (-1)) (ExeSlot.fill (-1)) param_zip exe_arg_zip
  if n < 0 then .error .valueErrorIslice
  else .ok ((pairs.map (fun pe => ParamSet.mk pe.1 pe.2)).take n.toNat)

/-- Strategy: the functions held by `_REGISTERED_STRATEGIES`. -/
inductive Strategy : Type
  | all_perm
  | step
  | random
  deriving DecidableEq, Repr

/-- registeredStrategies models `_REGISTERED_STRATEGIES` after module load:
the `@_register(...)` decorators run in source order. -/
def registeredStrategies : Dict String Strategy :=
  [("all_perm", .all_perm), ("step", .step), ("random", .random)]

/-- squote is the ASCII single-quote character used in the error message of
`resolve`. -/
def squote : String := String.singleton (Char.ofNat 39)

/-- unknownStrategyMsg is the message of the ValueError raised by `resolve`
for an unknown name: it interpolates the requested name and joins all
registered strategy names. -/
def unknownStrategyMsg (s : String) : String :=
  "Failed to find an ensembling strategy by the name of " ++ squote ++ s ++ squote ++
    "." ++ "All known strategies are:\n" ++
    String.intercalate ", " (registeredStrategies.map Prod.fst)

/-- resolveName models the string branch of `resolve(strategy)`: exact-name
lookup in the registry, ValueError with the enumerating message on a miss. -/
def resolveName (s : String) : Except StratError Strategy :=
  match dictGet registeredStrategies s with
  | some fn => .ok fn
  | none => .error (.valueErrorUnknown (unknownStrategyMsg s))

/-- PyVal: the shape of a value returned by a user-supplied strategy callable,
as far as `_make_safe_custom_strategy` inspects it (`isinstance(..., list)`
and `isinstance(..., dict)` on the elements). -/
inductive PyVal : Type
  | pyList (xs : List PyVal)
  | pyDict (d : Dict String String)
  | pyOther

/-- isListOfDicts models `isinstance(permutations, list) and
all(isinstance(p, dict) for p in permutations)`. -/
def isListOfDicts : PyVal → Bool
  | .pyList xs => xs.all (fun x => match x with | .pyDict _ => true | _ => false)
  | _ => false

/-- UserOutcome: what a user-supplied callable does when invoked — raise an
exception or return some value. -/
inductive UserOutcome : Type
  | raises (msg : String)
  | returns (v : PyVal)

/-- CustomFn: a user-supplied strategy callable, with `str(fn)` (its identity
in error messages) and its behaviour. -/
structure CustomFn : Type where
  fnId : String
  run : Dict String (List String) → Int → UserOutcome

/-- safeWrap models the `_impl` closure produced by
`_make_safe_custom_strategy(fn)`: call `fn`, turn any exception into
`UserStrategyError(str(fn))`, reject any result that is not a list of dicts
with the same error, and otherwise return the result unchanged. -/
def safeWrap (fn : CustomFn) (params : Dict String (List String)) (n : Int) :
    Except StratError PyVal :=
  match fn.run params n with
  | .raises _ => .error (.userStrategyError fn.fnId)
  | .returns v =>
    if isListOfDicts v then .ok v else .error (.userStrategyError fn.fnId)

/-! ## Concrete states used by the evaluation theorems -/

/-- jmEmpty: a fresh JobManager with all three collections empty. -/
def jmEmpty : JobManager := { jobs := [], db_jobs := [], completed := [] }

/-- ent_m1: a Model entity named m1 (not a database kind). -/
def ent_m1 : Entity := { name := "m1", etype := .model }

/-- job_m1: the Job created by `add_job("m1-step", "7", ent_m1)`. -/
def job_m1 : Job := Job.init "m1-step" "7" ent_m1

/-- st_one: a JobManager tracking exactly one active ordinary job. -/
def st_one : JobManager := { jobs := [("m1", job_m1)], db_jobs := [], completed := [] }

/-- report1: one status report as returned by the launcher adapter. -/
def report1 : StatusReport :=
  { status := "RUNNING", launcher_status := "R", returncode := some 0,
    error := none, output := none }

/-- job_done: job_m1 after reaching a terminal status. -/
def job_done : Job := { job_m1 with status := "COMPLETED" }

/-- st_done: a JobManager whose only entry is the completed job for m1. -/
def st_done : JobManager := { jobs := [], db_jobs := [], completed := [("m1", job_done)] }

/-! ## Dictionary lemmas -/

theorem dictGet_set_self {κ α : Type} [DecidableEq κ] (d : Dict κ α) (k : κ) (v : α) :
    dictGet (dictSet d k v) k = some v := by
  induction d with
  | nil => simp [dictGet, dictSet]
  | cons kv rest ih =>
    obtain ⟨k', v'⟩ := kv
    by_cases h : k' = k <;> simp [dictGet, dictSet, h, ih]

theorem dictGet_set_ne {κ α : Type} [DecidableEq κ] (d : Dict κ α) (k k' : κ) (v : α)
    (h : k ≠ k') : dictGet (dictSet d k v) k' = dictGet d k' := by
  induction d with
  | nil => simp [dictGet, dictSet, h]
  | cons kv rest ih =>
    obtain ⟨k0, v0⟩ := kv
    by_cases h0 : k0 = k
    · subst h0
      simp [dictGet, dictSet, h]
    · simp [dictGet, dictSet, h0, ih]

/-! ## Claim theorems -/

/-- C1: check_jobs() is claimed to make one batched get_step_update call with
the snapshot's job names and apply the i-th report to the i-th job via
set_status. In the code the call
`job.set_status(status.status, status.launcher_status, status.returncode,
error=..., output=...)` cannot bind to
`set_status(self, new_status, returncode, error=None, output=None)` — the
keyword `error` collides with the third positional argument — so on any
nonempty snapshot check_jobs raises TypeError and updates no job. -/
theorem check_jobs_set_status_call_fails :
    check_jobs st_one [report1] = .error (.typeError, st_one) ∧
    bindOk setStatusFormals 2 3 ["error", "output"] = false ∧
    stepUpdateNames st_one = ["m1-step"] :=
  ⟨rfl, rfl, rfl⟩

/-- C2: restart_job on a completed job is claimed to reset it to NEW, assign
the new id, bump history.runs, and reinsert it into an active collection. In
the code `job.reset(job_name, job_id)` passes two positional arguments to
`reset(self, new_job_id)`, so after deleting the completed entry the call
raises TypeError: the job is left in no collection, unreset. query_restart is
true before the call and false after only because the entry was destroyed. -/
theorem restart_job_reset_call_fails :
    query_restart st_done "m1" = true ∧
    restart_job st_done "m1-step2" "8" "m1" = .error (.typeError, jmEmpty) ∧
    bindOk resetFormals 1 2 [] = false :=
  ⟨rfl, rfl, rfl⟩

/-- C3: move_to_completed(job) is claimed to leave the job's name in exactly
one collection, and every operation is claimed to preserve the at-most-one
invariant. In the code move_to_completed reads `job.ename`, an attribute
`Job.__init__` never sets, so it raises AttributeError before mutating
anything; and add_job inserts into an active collection without checking
completed, so after add_job on an entity whose name is completed the name
lives in two collections at once. -/
theorem move_to_completed_attribute_error :
    move_to_completed st_one job_m1 = .error (.attributeError, st_one) ∧
    jobGetEname job_m1 = none ∧
    dictMem (add_job st_done "m1-step2" "8" ent_m1).jobs "m1" = true ∧
    dictMem (add_job st_done "m1-step2" "8" ent_m1).completed "m1" = true :=
  ⟨rfl, rfl, rfl, rfl⟩

/-- C4: all_perm is claimed to return the full cross product, untruncated,
when n_permutations <= 0; on params X -> [1, 2] with empty exe_args and the
default n = 0 it is claimed to produce 2 ParamSets. In the code the
`[:_n_permutations]` slices with n = 0 produce empty lists, so the result is
empty; a negative n raises ValueError from `itertools.islice`; the claimed
2-ParamSet output appears only when n = 2. -/
theorem all_perm_truncation_eval :
    create_all_permutations [("X", ["1", "2"])] [] 0 = .ok [] ∧
    create_all_permutations [("X", ["1", "2"])] [] (-1) = .error .valueErrorIslice ∧
    create_all_permutations [("X", ["1", "2"])] [] 2 =
      .ok [⟨.dict [("X", "1")], .dict []⟩, ⟨.dict [("X", "2")], .dict []⟩] :=
  ⟨rfl, rfl, rfl⟩

/-- C5: step is claimed to pair values positionally, yielding 2 ParamSets on
X -> [1, 2], Y -> [a, b] without truncation. In the code n = 0 (the default,
and the only way "no truncation" could be requested) empties both
`[:_n_permutations]` slices, giving an empty result; negative n raises
ValueError from islice; at n = 2 the zipped file params do appear, but
`zip_longest(..., fillvalue=-1)` puts the int -1 in the exe-arg slot. -/
theorem step_truncation_eval :
    step_values [("X", ["1", "2"]), ("Y", ["a", "b"])] [] 0 = .ok [] ∧
    step_values [("X", ["1", "2"]), ("Y", ["a", "b"])] [] (-1) = .error .valueErrorIslice ∧
    step_values [("X", ["1", "2"]), ("Y", ["a", "b"])] [] 2 =
      .ok [⟨.dict [("X", "1"), ("Y", "a")], .fill (-1)⟩,
           ⟨.dict [("X", "2"), ("Y", "b")], .fill (-1)⟩] :=
  ⟨rfl, rfl, rfl⟩

/-- C6 (counterexample): the claim says that after add_job(n, id, entity) the
lookup manager[n] returns the new Job; but add_job keys the entry by
entity.name, so with job name m1-step and entity name m1 the lookup under
m1-step raises KeyError. -/
theorem getitem_under_job_name_fails :
    getitem (add_job jmEmpty "m1-step" "42" ent_m1) "m1-step" = .error .keyError :=
  rfl

/-- C6 (amended): after add_job(n, id, entity), the lookup under entity.name
(not under n) returns a Job with status NEW and jid id, provided a
non-database entity's name is not shadowed by an existing db_jobs entry; the
lookup searches db_jobs, then jobs, then completed, in that priority order,
and raises KeyError if the name is absent from all three. -/
theorem add_job_lookup_amended (st : JobManager) (n id : String) (e : Entity)
    (hshadow : e.isDbKind = false → dictGet st.db_jobs e.name = none) :
    getitem (add_job st n id e) e.name = .ok (Job.init n id e) ∧
    (Job.init n id e).status = "NEW" ∧ (Job.init n id e).jid = id ∧
    (∀ m j, dictGet st.db_jobs m = some j → getitem st m = .ok j) ∧
    (∀ m j, dictGet st.db_jobs m = none → dictGet st.jobs m = some j →
      getitem st m = .ok j) ∧
    (∀ m j, dictGet st.db_jobs m = none → dictGet st.jobs m = none →
      dictGet st.completed m = some j → getitem st m = .ok j) ∧
    (∀ m, dictGet st.db_jobs m = none → dictGet st.jobs m = none →
      dictGet st.completed m = none → getitem st m = .error .keyError) := by
  refine ⟨?_, rfl, rfl, ?_, ?_, ?_, ?_⟩
  · by_cases hdb : e.isDbKind
    · simp [add_job, getitem, hdb, dictGet_set_self]
    · simp only [Bool.not_eq_true] at hdb
      simp [add_job, getitem, hdb, hshadow hdb, dictGet_set_self]
  · intro m j h
    simp [getitem, h]
  · intro m j h1 h2
    simp [getitem, h1, h2]
  · intro m j h1 h2 h3
    simp [getitem, h1, h2, h3]
  · intro m h1 h2 h3
    simp [getitem, h1, h2, h3]

/-- C6 (witness): instantiation of the amended claim on a fresh manager. -/
theorem add_job_lookup_amended_witness :
    getitem (add_job jmEmpty "m1-step" "42" ent_m1) "m1" =
      .ok (Job.init "m1-step" "42" ent_m1) :=
  (add_job_lookup_amended jmEmpty "m1-step" "42" ent_m1 (fun _ => rfl)).1

/-- C10: add_job(job_name, job_id, entity) inserts the new Job under the key
entity.name, not under job_name: when the two differ and job_name is not
otherwise tracked, the lookup under entity.name returns the new Job (whose
name field is job_name and jid is job_id) while the lookup under job_name
raises KeyError. -/
theorem add_job_keyed_by_entity_name (st : JobManager) (n id : String) (e : Entity)
    (hne : n ≠ e.name)
    (h1 : dictGet st.db_jobs n = none) (h2 : dictGet st.jobs n = none)
    (h3 : dictGet st.completed n = none)
    (hshadow : e.isDbKind = false → dictGet st.db_jobs e.name = none) :
    (getitem (add_job st n id e) e.name = .ok (Job.init n id e) ∧
      (Job.init n id e).name = n ∧ (Job.init n id e).jid = id) ∧
    getitem (add_job st n id e) n = .error .keyError := by
  refine ⟨⟨(add_job_lookup_amended st n id e hshadow).1, rfl, rfl⟩, ?_⟩
  by_cases hdb : e.isDbKind
  · simp [add_job, getitem, hdb, dictGet_set_ne _ _ _ _ (fun h => hne h.symm), h1, h2, h3]
  · simp only [Bool.not_eq_true] at hdb
    simp [add_job, getitem, hdb, dictGet_set_ne _ _ _ _ (fun h => hne h.symm), h1, h2, h3]

/-- C10 (witness): instantiation on a fresh manager with job name m1-step and
entity name m1. -/
theorem add_job_keyed_by_entity_name_witness :
    getitem (add_job jmEmpty "m1-step" "42" ent_m1) "m1" =
      .ok (Job.init "m1-step" "42" ent_m1) ∧
    getitem (add_job jmEmpty "m1-step" "42" ent_m1) "m1-step" = .error .keyError := by
  have h := add_job_keyed_by_entity_name jmEmpty "m1-step" "42" ent_m1
    (by decide) rfl rfl rfl (fun _ => rfl)
  exact ⟨h.1.1, h.2⟩

/-- C7: resolve on a string argument returns the registered function on an
exact name match, and on any unknown name raises a ValueError whose message
names the requested strategy and enumerates every registered strategy name
(all_perm, step, random). -/
theorem resolve_name_spec (s : String) :
    (∀ fn, dictGet registeredStrategies s = some fn → resolveName s = .ok fn) ∧
    (dictGet registeredStrategies s = none →
      resolveName s = .error (.valueErrorUnknown (unknownStrategyMsg s))) ∧
    registeredStrategies.map Prod.fst = ["all_perm", "step", "random"] ∧
    unknownStrategyMsg s =
      "Failed to find an ensembling strategy by the name of " ++ squote ++ s ++ squote ++
        "." ++ "All known strategies are:\n" ++ "all_perm, step, random" := by
  refine ⟨?_, ?_, rfl, rfl⟩
  · intro fn h
    simp [resolveName, h]
  · intro h
    simp [resolveName, h]

/-- C7 (witness): a registered name resolves to its strategy; the name bogus
raises the enumerating ValueError. -/
theorem resolve_name_spec_witness :
    resolveName "all_perm" = .ok .all_perm ∧
    resolveName "bogus" = .error (.valueErrorUnknown (unknownStrategyMsg "bogus")) :=
  ⟨(resolve_name_spec "all_perm").1 .all_perm rfl, (resolve_name_spec "bogus").2.1 rfl⟩

/-- C8: the wrapper produced for a user callable raises UserStrategyError
carrying the callable's identity whenever the callable raises during
invocation or returns anything that is not a list of dicts; a well-formed
list of dicts is returned unchanged; and a raw user exception never escapes
the wrapper. -/
theorem safe_custom_strategy_spec (fn : CustomFn) (p : Dict String (List String)) (n : Int) :
    (∀ m, fn.run p n = .raises m → safeWrap fn p n = .error (.userStrategyError fn.fnId)) ∧
    (∀ v, fn.run p n = .returns v → isListOfDicts v = false →
      safeWrap fn p n = .error (.userStrategyError fn.fnId)) ∧
    (∀ v, fn.run p n = .returns v → isListOfDicts v = true → safeWrap fn p n = .ok v) ∧
    (∀ m, safeWrap fn p n ≠ .error (.userException m)) := by
  refine ⟨?_, ?_, ?_, ?_⟩
  · intro m h
    simp [safeWrap, h]
  · intro v h hv
    simp [safeWrap, h, hv]
  · intro v h hv
    simp [safeWrap, h, hv]
  · intro m
    cases h : fn.run p n with
    | raises msg => simp [safeWrap, h]
    | returns v =>
      by_cases hv : isListOfDicts v = true <;> simp [safeWrap, h, hv]

/-- fnBoom: a user callable that always raises. -/
def fnBoom : CustomFn := { fnId := "fnBoom", run := fun _ _ => .raises "boom" }

/-- fnGood: a user callable returning a well-formed list of dicts. -/
def fnGood : CustomFn :=
  { fnId := "fnGood", run := fun _ _ => .returns (.pyList [.pyDict [("X", "1")]]) }

/-- C8 (witness): the wrapper normalizes a raising callable's failure into
UserStrategyError and passes through a well-formed result unchanged. -/
theorem safe_custom_strategy_spec_witness :
    safeWrap fnBoom [] 0 = .error (.userStrategyError "fnBoom") ∧
    safeWrap fnGood [] 0 = .ok (.pyList [.pyDict [("X", "1")]]) :=
  ⟨(safe_custom_strategy_spec fnBoom [] 0).1 "boom" rfl,
   (safe_custom_strategy_spec fnGood [] 0).2.2.1 _ rfl rfl⟩

/-- C9: get_status(entity) returns the status string of the entity's job,
consulting completed first and then the lookup over the active collections
(db_jobs, then jobs); when the entity's name is tracked nowhere it raises the
SmartSimError saying the entity has not been launched by this Controller. -/
theorem get_status_spec (st : JobManager) (ename : String) :
    (∀ j, dictGet st.completed ename = some j → get_status st ename = .ok j.status) ∧
    (∀ j, dictGet st.completed ename = none → dictGet st.db_jobs ename = some j →
      get_status st ename = .ok j.status) ∧
    (∀ j, dictGet st.completed ename = none → dictGet st.db_jobs ename = none →
      dictGet st.jobs ename = some j → get_status st ename = .ok j.status) ∧
    (dictGet st.completed ename = none → dictGet st.db_jobs ename = none →
      dictGet st.jobs ename = none →
      get_status st ename = .error (.smartSimError
        ("Entity by the name of " ++ ename ++
          " has not been launched by this Controller"))) := by
  refine ⟨?_, ?_, ?_, ?_⟩
  · intro j h
    simp [get_status, h]
  · intro j h1 h2
    simp [get_status, getitem, h1, h2]
  · intro j h1 h2 h3
    simp [get_status, getitem, h1, h2, h3]
  · intro h1 h2 h3
    simp [get_status, getitem, h1, h2, h3]

/-- C9 (witness): a completed entity reports its terminal status; an entity
never registered raises the not-launched error. -/
theorem get_status_spec_witness :
    get_status st_done "m1" = .ok "COMPLETED" ∧
    get_status st_done "zzz" = .error (.smartSimError
      "Entity by the name of zzz has not been launched by this Controller") :=
  ⟨(get_status_spec st_done "m1").1 job_done rfl,
   (get_status_spec st_done "zzz").2.2.2 rfl rfl rfl⟩

end SmartSim
